import Mathlib

/-! A model of the juttle dataflow runtime core: the `view` proc and the
`http_server` read adapter (`ReadHTTPServer`) from
`lib/runtime/procs/view.js`, together with the CLI run driver
(`perform_run`).  Points and timestamps are abstract type parameters; the
JavaScript object state is passed explicitly, and asynchronous resolution
(promises, timers, callbacks) is modelled as explicit events on the state. -/

namespace JuttleModel

/-- Decimal string of a natural number: the embedding of the JavaScript
number-to-string coercion used in `'view' + (program.channels++)`. -/
def natToDec (n : Nat) : String :=
  if n = 0 then "0" else (((Nat.digits 10 n).map Nat.digitChar).reverse).asString

/-- JavaScript `a || b` for an optional string: an absent or empty (falsy)
string falls back to the default. -/
def jsStrOr (v : Option String) (dflt : String) : String :=
  match v with
  | some s => if s = "" then dflt else s
  | none => dflt

/-- JavaScript `a || b` for an optional number: an absent or zero (falsy)
number falls back to the default. -/
def jsNatOr (v : Option Nat) (dflt : Nat) : Nat :=
  match v with
  | some n => if n = 0 then dflt else n
  | none => dflt

/-- The options object handed to the `ReadHTTPServer` constructor.  `every`
is a parsed duration; `some d` stands for a duration object whose
`milliseconds()` is `d` (any duration object is truthy in JavaScript). -/
structure Options where
  port : Option Nat := none
  method : Option String := none
  timeField : Option String := none
  every : Option Nat := none

/-- The params object handed to the constructor; `filter_ast` records
whether a (truthy) filter AST was attached to the proc. -/
structure Params where
  filter_ast : Bool := false

/-- Compile-time construction errors thrown by `this.compileError`. -/
inductive CompileError where
  | invalidOptionValue (option : String) (supported : String)
  | adapterUnsupportedFilter (proc : String) (filter : String)
  deriving DecidableEq, Repr

/-- `var allowed_methods = [ 'POST', 'PUT' ];` -/
def allowed_methods : List String := ["POST", "PUT"]

/-- The instance fields of a `ReadHTTPServer`, plus the `pendingRead` /
`pendingReadLimit` bookkeeping.  `pendingRead : Bool` records whether the
`this.pendingRead` field holds a (truthy) resolver function; note the
source never clears it once set.  `serverStarted` records whether
`this.server` was assigned by `start()`. -/
structure ReadHTTPServer (Point : Type) where
  port : Nat
  method : String
  timeField : Option String
  readEvery : Nat
  points : List Point
  pendingRead : Bool
  pendingReadLimit : Nat
  serverStarted : Bool

/-- The `ReadHTTPServer` constructor.  It validates `options.method`
against `allowed_methods` (the check is skipped for a falsy method, as in
`if (options.method && allowed_methods.indexOf(options.method) === -1)`),
assigns the defaulted fields, and then rejects an attached filter AST.
Throwing is modelled by `Except.error`. -/
def construct (Point : Type) (options : Options) (params : Params) :
    Except CompileError (ReadHTTPServer Point) :=
  if (match options.method with
      | some m => m ≠ "" && !(allowed_methods.contains m)
      | none => false) then
    .error (.invalidOptionValue "method" "POST, PUT")
  else if params.filter_ast then
    .error (.adapterUnsupportedFilter "read http_server" "filtering")
  else
    .ok { port := jsNatOr options.port 8080
          method := jsStrOr options.method "POST"
          timeField := options.timeField
          readEvery := (options.every).getD 50
          points := []
          pendingRead := false
          pendingReadLimit := 0
          serverStarted := false }

/-- A runtime error object: `err.code` and `err.message`, as produced by
`this.runtimeError(code, info)` and by the body parsers. -/
structure RtError where
  code : String
  message : String
  deriving DecidableEq, Repr

/-- `this.runtimeError('INVALID-HTTP-METHOD', { types: 'POST' })`.
Modelled from the spec: the human-readable message text is rendered by the
errors module, which is outside the sources; only the stable code matters
to the behaviour specified here. -/
def invalidHttpMethodError : RtError :=
  { code := "INVALID-HTTP-METHOD", message := "INVALID-HTTP-METHOD" }

/-- `this.runtimeError('INVALID-TYPE', { types: 'csv, json' })`.
Modelled from the spec: as for `invalidHttpMethodError`, only the code is
specified. -/
def invalidTypeError : RtError :=
  { code := "INVALID-TYPE", message := "INVALID-TYPE" }

/-- A body-parse failure raised by `parsers.getParser(...).parseStream`.
Modelled from the spec: the parsers module is outside the sources; per the
spec a parse failure carries its own stable code, distinct from
`INVALID-TYPE` and `INVALID-HTTP-METHOD`, and a message string. -/
def parseFailure (msg : String) : RtError :=
  { code := "PARSE-FAILURE", message := msg }

/-- What the body parser handed to the `parseStream` callback: either a
single parsed object or an array of parsed objects. -/
inductive Payload (Point : Type) where
  | object (p : Point)
  | array (ps : List Point)

/-- `if (!_.isArray(points)) { points = [points]; }` -/
def coercePayload {Point : Type} : Payload Point → List Point
  | .object p => [p]
  | .array ps => ps

/-- An incoming HTTP request.  `contentTypeParsed` is the result of
`contentType.parse(req)`: `some (type, subtype)` on success, `none` when
the header is missing or unparseable (the caught exception leaves `format`
undefined).  `body` is the outcome of running the selected parser on the
request stream: `Except.error msg` stands for a rejection whose error has
message `msg`. -/
structure Request (Point : Type) where
  method : String
  contentTypeParsed : Option (String × String)
  body : Except String (Payload Point)

/-- `format = contentType.parse(req).type.split('/')[1]`, with the
try/catch leaving it undefined on failure. -/
def requestFormat {Point : Type} (req : Request Point) : Option String :=
  req.contentTypeParsed.map (fun ct => ct.2)

/-- The node response object, as the handler leaves it: `statusMessage`
is `none` unless assigned (node then derives the reason phrase from the
status code), and `res.end()` with no argument leaves an empty body. -/
structure Response where
  statusCode : Nat
  statusMessage : Option String := none
  body : String := ""
  deriving DecidableEq, Repr

/-- `handleListenError(res, err)`: set the status text to the error's
message, default the status to 400, override it to 415 for
`INVALID-TYPE` and to 404 for `INVALID-HTTP-METHOD`, trigger an `error`
event, and end the response.  Returns the response together with the
list of triggered error events. -/
def handleListenError (err : RtError) : Response × List RtError :=
  ({ statusCode :=
       if err.code = "INVALID-TYPE" then 415
       else if err.code = "INVALID-HTTP-METHOD" then 404
       else 400
     statusMessage := some err.message
     body := "" }, [err])

/-- The result object a `read` call produces: `{ points: [...] }` from
`readResult`, or the bare `{}` returned when the poll timeout fires. -/
inductive ReadResult (Point : Type) where
  | points (pts : List Point)
  | emptyObject

/-- The adapter state together with the state of the promise created by a
suspended `read` call: `waiter` is true while that promise is still
unsettled, i.e. while a caller is actually suspended on it.  (The
`pendingRead` field inside `srv` is the adapter's own record of having
stored a resolver, which the source never clears.) -/
structure SrvWorld (Point : Type) where
  srv : ReadHTTPServer Point
  waiter : Bool

/-- `readResult(limit)`: `{ points: this.points.splice(0, limit) }` —
return the first `limit` buffered points and remove them from the
buffer. -/
def readResult {Point : Type} (srv : ReadHTTPServer Point) (limit : Nat) :
    ReadResult Point × ReadHTTPServer Point :=
  (.points (srv.points.take limit), { srv with points := srv.points.drop limit })

/-- Everything one incoming HTTP request produces: the response, the
triggered error events, what was handed to a still-unsettled pending-read
promise (`delivered`), what was handed to an already-settled one and hence
discarded (`discarded`), and the successor state. -/
structure RequestOut (Point : Type) where
  response : Response
  errors : List RtError
  delivered : Option (ReadResult Point)
  discarded : Option (ReadResult Point)
  world : SrvWorld Point

/-- The request handler installed by `start()`.  `parseTime` is the
inherited `AdapterRead.parseTime` time-field normalization (outside the
sources), taken as a parameter.  The method is checked first, then the
format, then the body is parsed; any thrown error goes to
`handleListenError`.  On success the (coerced, time-normalized) points are
appended to the buffer and, when `this.pendingRead` is set, the stored
resolver is called with `readResult(this.pendingReadLimit)` — which
splices the buffer even when the promise has already settled. -/
def handleRequest {Point : Type} (parseTime : List Point → List Point)
    (w : SrvWorld Point) (req : Request Point) : RequestOut Point :=
  if req.method ≠ w.srv.method then
    let (res, errs) := handleListenError invalidHttpMethodError
    ⟨res, errs, none, none, w⟩
  else if requestFormat req ≠ some "json" ∧ requestFormat req ≠ some "csv" then
    let (res, errs) := handleListenError invalidTypeError
    ⟨res, errs, none, none, w⟩
  else
    match req.body with
    | .error msg =>
        let (res, errs) := handleListenError (parseFailure msg)
        ⟨res, errs, none, none, w⟩
    | .ok payload =>
        let pts := parseTime (coercePayload payload)
        let srv1 := { w.srv with points := w.srv.points ++ pts }
        if srv1.pendingRead then
          let (r, srv2) := readResult srv1 srv1.pendingReadLimit
          if w.waiter then
            ⟨{ statusCode := 200 }, [], some r, none, ⟨srv2, false⟩⟩
          else
            ⟨{ statusCode := 200 }, [], none, some r, ⟨srv2, w.waiter⟩⟩
        else
          ⟨{ statusCode := 200 }, [], none, none, ⟨srv1, w.waiter⟩⟩

/-- The immediate outcome of a `read(from, to, limit, state)` call: either
a result returned synchronously, or a suspension carrying the duration of
the `.timeout(this.readEvery)` timer armed on the returned promise. -/
inductive ReadCall (Point : Type) where
  | immediate (r : ReadResult Point)
  | suspended (timerMs : Nat)

/-- `read`: with a non-empty buffer return `readResult(limit)`
immediately; otherwise store the promise's resolver in `this.pendingRead`
and the limit in `this.pendingReadLimit`, and suspend the caller on a
promise guarded by a `readEvery`-millisecond timeout. -/
def read {Point : Type} (w : SrvWorld Point) (limit : Nat) :
    ReadCall Point × SrvWorld Point :=
  if w.srv.points.length > 0 then
    let (r, srv1) := readResult w.srv limit
    (.immediate r, ⟨srv1, w.waiter⟩)
  else
    (.suspended w.srv.readEvery,
      ⟨{ w.srv with pendingRead := true, pendingReadLimit := limit }, true⟩)

/-- The `.timeout(this.readEvery)` timer firing while the pending-read
promise is still unsettled: the `Promise.TimeoutError` is caught and the
suspended caller is resolved with the bare `{}`.  If the promise has
already settled the timer has no effect.  Returns what the suspended
caller received (if anyone was still waiting). -/
def timeoutFire {Point : Type} (w : SrvWorld Point) :
    Option (ReadResult Point) × SrvWorld Point :=
  if w.waiter then (some .emptyObject, ⟨w.srv, false⟩) else (none, w)

/-- `start()`: install the request handler and listen; `this.server` is
now set. -/
def start {Point : Type} (w : SrvWorld Point) : SrvWorld Point :=
  ⟨{ w.srv with serverStarted := true }, w.waiter⟩

/-- The promise returned by `teardown()`: either still waiting for the
server's close callback, or already resolved. -/
inductive TeardownPromise where
  | waitingClose
  | resolvedNow
  deriving DecidableEq, Repr

/-- `teardown()`: when `this.server` is set, call `server.close` and
resolve only from its callback; otherwise resolve immediately.  The
function is total: no path throws. -/
def teardown {Point : Type} (w : SrvWorld Point) : TeardownPromise :=
  if w.srv.serverStarted then .waitingClose else .resolvedNow

/-- The server's close callback firing settles the teardown promise. -/
def closeCallbackFire : TeardownPromise → TeardownPromise
  | .waitingClose => .resolvedNow
  | .resolvedNow => .resolvedNow

/-- The part of the program object the view proc touches: the
program-wide channel counter `program.channels`. -/
structure ProgramState where
  channels : Nat

/-- A constructed view's own state.  `doneCalled` models the sink's
terminal completion flag.  Modelled from the spec: the `sink` base class
(`this.done()`) is outside the sources; per the spec `done` records local
completion of the terminal proc. -/
structure ViewState where
  name : String
  channel : String
  doneCalled : Bool

/-- `view.initialize`: take the name from params and assign
`this.channel = 'view' + (program.channels++)`. -/
def viewInit (name : String) (prog : ProgramState) : ViewState × ProgramState :=
  ({ name := name
     channel := "view" ++ natToDec prog.channels
     doneCalled := false },
   { channels := prog.channels + 1 })

/-- Constructing a list of views in order against one program object. -/
def initViews (names : List String) (prog : ProgramState) :
    List ViewState × ProgramState :=
  match names with
  | [] => ([], prog)
  | n :: rest =>
      let (v, prog1) := viewInit n prog
      let (vs, prog2) := initViews rest prog1
      (v :: vs, prog2)

/-- A typed event emitted on `program.events` by a view. -/
inductive ViewEvent (Point Time : Type) where
  | viewMark (channel : String) (time : Time)
  | viewTick (channel : String) (time : Time)
  | viewPoints (channel : String) (points : List Point)
  | viewEof (channel : String)

/-- `view.mark(time)`: emit `view:mark {channel, time}`. -/
def viewMark {Point Time : Type} (v : ViewState) (t : Time) :
    List (ViewEvent Point Time) × ViewState :=
  ([.viewMark v.channel t], v)

/-- `view.tick(time)`: emit `view:tick {channel, time}`. -/
def viewTick {Point Time : Type} (v : ViewState) (t : Time) :
    List (ViewEvent Point Time) × ViewState :=
  ([.viewTick v.channel t], v)

/-- `view.process(points)`: emit `view:points {channel, points}`. -/
def viewProcess {Point Time : Type} (v : ViewState) (pts : List Point) :
    List (ViewEvent Point Time) × ViewState :=
  ([.viewPoints v.channel pts], v)

/-- `view.eof()`: emit `view:eof {channel}` and then call `this.done()`. -/
def viewEof {Point Time : Type} (v : ViewState) :
    List (ViewEvent Point Time) × ViewState :=
  ([.viewEof v.channel], { v with doneCalled := true })

/-- An event observed by the CLI's listeners during a run: `error` or
`warning` on `program.events` or on the view manager's emitter. -/
inductive CliEvent where
  | progError
  | progWarning
  | viewMgrError
  | viewMgrWarning
  deriving DecidableEq, Repr

/-- Whether one observed event sets `had_an_error` in `perform_run`. -/
def CliEvent.setsHadAnError : CliEvent → Bool
  | .progError => true
  | .viewMgrError => true
  | .progWarning => false
  | .viewMgrWarning => false

/-- `had_an_error` after a run that observed the given events. -/
def had_an_error (evs : List CliEvent) : Bool :=
  evs.any CliEvent.setsHadAnError

/-- The settled outcome of the promise `perform_run` returns. -/
inductive RunOutcome where
  | resolved
  | rejected (message : String)
  deriving DecidableEq, Repr

/-- The tail of `perform_run`: once `program.done()` (and the views-done
fan-in) has resolved, the `finally` block rejects the run with
`Error('Program terminated with errors')` whenever `had_an_error` was set
by any observed `error` event, and resolves it otherwise.  When `done`
never resolves the promise never settles (`none`). -/
def perform_run_outcome (doneResolves : Bool) (evs : List CliEvent) :
    Option RunOutcome :=
  if doneResolves then
    some (if had_an_error evs then .rejected "Program terminated with errors"
          else .resolved)
  else none

/-- A freshly constructed adapter instance over `Nat` points, as the
constructor leaves it with default options. -/
def freshSrv : ReadHTTPServer Nat :=
  { port := 8080, method := "POST", timeField := none, readEvery := 50,
    points := [], pendingRead := false, pendingReadLimit := 0,
    serverStarted := false }

/-- A fresh adapter with no suspended reader. -/
def w0 : SrvWorld Nat := ⟨freshSrv, false⟩

/-- An adapter whose buffer holds three points, in arrival order. -/
def w3 : SrvWorld Nat := ⟨{ freshSrv with points := [1, 2, 3] }, false⟩

/-- An adapter with a live pending read (limit 2) and empty buffer. -/
def wPend : SrvWorld Nat :=
  ⟨{ freshSrv with pendingRead := true, pendingReadLimit := 2 }, true⟩

/-- A request whose method (`GET`) differs from the configured one. -/
def reqWrongMethod : Request Nat :=
  { method := "GET", contentTypeParsed := some ("application", "json"),
    body := .ok (.array []) }

/-- A matching-method request with an unsupported content type. -/
def reqBadType : Request Nat :=
  { method := "POST", contentTypeParsed := some ("text", "xml"),
    body := .ok (.array []) }

/-- A matching-method json request whose body fails to parse. -/
def reqBadBody : Request Nat :=
  { method := "POST", contentTypeParsed := some ("application", "json"),
    body := .error "bad json" }

/-- A well-formed json request carrying an array of two points. -/
def reqGood : Request Nat :=
  { method := "POST", contentTypeParsed := some ("application", "json"),
    body := .ok (.array [1, 2]) }

/-- A well-formed json request whose body parses to a single object. -/
def reqGoodSingle : Request Nat :=
  { method := "POST", contentTypeParsed := some ("application", "json"),
    body := .ok (.object 5) }

/-- A started adapter, before any read: the first step of the dropped-point
scenario. -/
def c10World : SrvWorld Nat := ⟨{ freshSrv with serverStarted := true }, false⟩

/-- The dropped-point scenario after `read(.., 10)` suspended on an empty
buffer and the poll timeout then fired: the caller got `{}` back, but
`this.pendingRead` still holds the stale resolver. -/
def c10AfterTimeout : SrvWorld Nat := (timeoutFire (read c10World 10).2).2

/-- A well-formed json request delivering the single point `7` into the
dropped-point scenario. -/
def c10Request : Request Nat :=
  { method := "POST", contentTypeParsed := some ("application", "json"),
    body := .ok (.array [7]) }

/-- `Nat.digitChar` is injective below 10. -/
lemma digitChar_injOn : ∀ a < 10, ∀ b < 10, Nat.digitChar a = Nat.digitChar b → a = b := by
  decide

/-- Mapping `Nat.digitChar` over lists of base-10 digits is injective. -/
lemma map_digitChar_inj : ∀ (l1 l2 : List Nat), (∀ d ∈ l1, d < 10) → (∀ d ∈ l2, d < 10) →
    l1.map Nat.digitChar = l2.map Nat.digitChar → l1 = l2 := by
  intro l1
  induction l1 with
  | nil => intro l2 _ _ h; cases l2 <;> simp_all
  | cons d t ih =>
    intro l2 h1 h2 h
    cases l2 with
    | nil => simp at h
    | cons d2 t2 =>
      simp only [List.map_cons, List.cons.injEq] at h
      have hd : d = d2 := digitChar_injOn d (h1 d (by simp)) d2 (h2 d2 (by simp)) h.1
      have ht : t = t2 :=
        ih t2 (fun x hx => h1 x (by simp [hx])) (fun x hx => h2 x (by simp [hx])) h.2
      simp [hd, ht]

/-- The digit characters of a positive number are never just `'0'`. -/
lemma digits_map_ne_zero_list (b : Nat) (hb : b ≠ 0) :
    (Nat.digits 10 b).map Nat.digitChar ≠ ['0'] := by
  intro h
  have hdig : Nat.digits 10 b = [0] := by
    apply map_digitChar_inj
    · intro d hd; exact Nat.digits_lt_base (by norm_num) hd
    · intro d hd; simp at hd; omega
    · simpa using h
  have h2 := congrArg (Nat.ofDigits 10) hdig
  rw [Nat.ofDigits_digits] at h2
  simp [Nat.ofDigits] at h2
  exact hb h2

/-- The decimal string of a natural number determines the number. -/
lemma natToDec_inj : ∀ a b : Nat, natToDec a = natToDec b → a = b := by
  intro a b h
  unfold natToDec at h
  by_cases ha : a = 0 <;> by_cases hb : b = 0 <;> simp [ha, hb] at h ⊢
  · have h2 := congrArg String.data h
    have h3 : ['0'] = ((Nat.digits 10 b).map Nat.digitChar).reverse := h2
    have h4 : (Nat.digits 10 b).map Nat.digitChar = ['0'] := by
      have h5 := congrArg List.reverse h3
      simpa using h5.symm
    exact (digits_map_ne_zero_list b hb h4).elim
  · have h2 := congrArg String.data h
    have h3 : ((Nat.digits 10 a).map Nat.digitChar).reverse = ['0'] := h2
    have h4 : (Nat.digits 10 a).map Nat.digitChar = ['0'] := by
      have h5 := congrArg List.reverse h3
      simpa using h5
    exact (digits_map_ne_zero_list a ha h4).elim
  · have h5 : Nat.digits 10 a = Nat.digits 10 b := by
      apply map_digitChar_inj
      · intro d hd; exact Nat.digits_lt_base (by norm_num) hd
      · intro d hd; exact Nat.digits_lt_base (by norm_num) hd
      · exact h
    have h6 := congrArg (Nat.ofDigits 10) h5
    rwa [Nat.ofDigits_digits, Nat.ofDigits_digits] at h6

/-- Channel names `"view" + n` are injective in the counter value. -/
lemma viewChannel_inj : Function.Injective (fun n => "view" ++ natToDec n) := by
  intro a b h
  simp only at h
  have h2 := congrArg String.data h
  simp only [String.data_append] at h2
  have h3 : (natToDec a).data = (natToDec b).data := by
    exact List.append_cancel_left h2
  exact natToDec_inj a b (by cases hA : natToDec a; cases hB : natToDec b; simp_all)

/-- The channel names produced by a run of view constructions are the
consecutive counter values, in construction order. -/
lemma initViews_map_channel (names : List String) (prog : ProgramState) :
    (initViews names prog).1.map ViewState.channel
      = (List.range names.length).map (fun i => "view" ++ natToDec (prog.channels + i)) := by
  induction names generalizing prog with
  | nil => simp [initViews]
  | cons n rest ih =>
    simp only [initViews, viewInit, List.map_cons, List.length_cons]
    rw [List.range_succ_eq_map]
    simp only [List.map_cons, List.map_map]
    rw [ih { channels := prog.channels + 1 }]
    rw [List.cons.injEq]
    refine ⟨by simp, ?_⟩
    apply List.map_congr_left
    intro i hi
    simp only [Function.comp_apply, Nat.succ_eq_add_one]
    have harith : prog.channels + 1 + i = prog.channels + (i + 1) := by omega
    rw [harith]

/-- Each view construction advances the program channel counter by one. -/
lemma initViews_counter (names : List String) (prog : ProgramState) :
    (initViews names prog).2.channels = prog.channels + names.length := by
  induction names generalizing prog with
  | nil => simp [initViews]
  | cons n rest ih =>
    simp only [initViews, viewInit, List.length_cons]
    rw [ih { channels := prog.channels + 1 }]
    simp
    omega

/-- C1: for every incoming HTTP request to the http_server read adapter,
a method mismatch yields status 404; otherwise a Content-Type subtype that
is neither json nor csv (including a missing or unparseable Content-Type)
yields status 415; otherwise a body-parse failure yields status 400 with
the error's message as the status text. -/
theorem C1_http_error_statuses {Point : Type} (parseTime : List Point → List Point)
    (w : SrvWorld Point) (req : Request Point) :
    (req.method ≠ w.srv.method →
      (handleRequest parseTime w req).response.statusCode = 404)
    ∧ (req.method = w.srv.method →
        requestFormat req ≠ some "json" → requestFormat req ≠ some "csv" →
        (handleRequest parseTime w req).response.statusCode = 415)
    ∧ (∀ msg, req.method = w.srv.method →
        (requestFormat req = some "json" ∨ requestFormat req = some "csv") →
        req.body = .error msg →
        (handleRequest parseTime w req).response.statusCode = 400
        ∧ (handleRequest parseTime w req).response.statusMessage = some msg) := by
  refine ⟨?_, ?_, ?_⟩
  · intro hm
    simp [handleRequest, hm, handleListenError, invalidHttpMethodError]
  · intro hm hj hc
    simp [handleRequest, hm, hj, hc, handleListenError, invalidTypeError]
  · intro msg hm hf hb
    have hj : ¬(requestFormat req ≠ some "json" ∧ requestFormat req ≠ some "csv") := by
      rcases hf with hf | hf
      · simp [hf]
      · simp [hf]
    simp [handleRequest, hm, hj, hb, handleListenError, parseFailure]

/-- C1 witness: concrete requests exercising the 404, 415 and 400 paths. -/
theorem C1_http_error_statuses_witness :
    (handleRequest id w0 reqWrongMethod).response.statusCode = 404
    ∧ (handleRequest id w0 reqBadType).response.statusCode = 415
    ∧ (handleRequest id w0 reqBadBody).response.statusCode = 400
    ∧ (handleRequest id w0 reqBadBody).response.statusMessage = some "bad json" := by
  refine ⟨(C1_http_error_statuses id w0 reqWrongMethod).1 (by decide), ?_, ?_, ?_⟩
  · exact (C1_http_error_statuses id w0 reqBadType).2.1 (by decide) (by decide) (by decide)
  · exact ((C1_http_error_statuses id w0 reqBadBody).2.2 "bad json" (by decide)
      (Or.inl (by decide)) rfl).1
  · exact ((C1_http_error_statuses id w0 reqBadBody).2.2 "bad json" (by decide)
      (Or.inl (by decide)) rfl).2

/-- C2: a read call made while the buffer is empty suspends on a promise
guarded by a timer of `readEvery` milliseconds (50 by default, when the
`every` option is absent); when that timer fires the suspended caller is
resolved with the empty object — not an error — and no caller remains
suspended. -/
theorem C2_empty_read_resolves_empty {Point : Type} (w : SrvWorld Point) (limit : Nat)
    (h : w.srv.points = []) :
    (read w limit).1 = ReadCall.suspended w.srv.readEvery
    ∧ (read w limit).2.waiter = true
    ∧ timeoutFire (read w limit).2 = (some ReadResult.emptyObject, ⟨(read w limit).2.srv, false⟩)
    ∧ (∀ (options : Options) (params : Params) (srv : ReadHTTPServer Point),
        options.every = none → construct Point options params = .ok srv →
        srv.readEvery = 50) := by
  refine ⟨?_, ?_, ?_, ?_⟩
  · simp [read, h]
  · simp [read, h]
  · simp [read, h, timeoutFire]
  · intro options params srv hev hc
    unfold construct at hc
    split at hc
    · exact absurd hc (by simp)
    · split at hc
      · exact absurd hc (by simp)
      · simp only [Except.ok.injEq] at hc
        rw [← hc]
        simp [hev]

/-- C2 witness: a fresh adapter with an empty buffer and no `every`
option. -/
theorem C2_empty_read_resolves_empty_witness :
    (read w0 10).1 = ReadCall.suspended 50
    ∧ timeoutFire (read w0 10).2 = (some ReadResult.emptyObject, ⟨(read w0 10).2.srv, false⟩)
    ∧ freshSrv.readEvery = 50 := by
  have h := C2_empty_read_resolves_empty w0 10 rfl
  exact ⟨h.1, h.2.2.1, h.2.2.2 { } { } freshSrv rfl rfl⟩

/-- C3: a read call made while the buffer is non-empty returns immediately
(without suspending) the first `min limit length` buffered points in FIFO
order of arrival, and exactly those points are removed from the buffer. -/
theorem C3_nonempty_read_immediate {Point : Type} (w : SrvWorld Point) (limit : Nat)
    (h : w.srv.points ≠ []) :
    (read w limit).1 = ReadCall.immediate (ReadResult.points (w.srv.points.take limit))
    ∧ (w.srv.points.take limit).length = min limit w.srv.points.length
    ∧ (read w limit).2.srv.points = w.srv.points.drop limit
    ∧ w.srv.points.take limit ++ (read w limit).2.srv.points = w.srv.points
    ∧ (read w limit).2.waiter = w.waiter := by
  have hlen : w.srv.points.length > 0 := List.length_pos.mpr h
  refine ⟨?_, ?_, ?_, ?_, ?_⟩
  · simp [read, hlen, readResult]
  · simp [List.length_take]
  · simp [read, hlen, readResult]
  · simp [read, hlen, readResult]
  · simp [read, hlen, readResult]

/-- C3 witness: a buffer holding `[1, 2, 3]` read with limit 2. -/
theorem C3_nonempty_read_immediate_witness :
    (read w3 2).1 = ReadCall.immediate (ReadResult.points [1, 2])
    ∧ (read w3 2).2.srv.points = [3]
    ∧ [1, 2] ++ [3] = w3.srv.points := by
  have h := C3_nonempty_read_immediate w3 2 (by decide)
  refine ⟨?_, ?_, by decide⟩
  · have h1 := h.1
    simpa using h1
  · have h2 := h.2.2.1
    simpa using h2

/-- C4: a well-formed request (matching method, json or csv subtype,
parseable body) is answered with 200 and an empty body and triggers no
error; the payload is coerced to a point sequence (a single object
becoming a one-element sequence), time-normalized by `parseTime`, and
appended to the buffer; when no resolver is stored the buffer simply grows
and nothing is delivered; when a pending read is outstanding (its promise
unsettled) it is resolved with up to its requested limit of buffered
points, which leave the buffer. -/
theorem C4_success_request {Point : Type} (parseTime : List Point → List Point)
    (w : SrvWorld Point) (req : Request Point) (payload : Payload Point)
    (hm : req.method = w.srv.method)
    (hf : requestFormat req = some "json" ∨ requestFormat req = some "csv")
    (hb : req.body = .ok payload) :
    (handleRequest parseTime w req).response
        = { statusCode := 200, statusMessage := none, body := "" }
    ∧ (handleRequest parseTime w req).errors = []
    ∧ (∀ p : Point, coercePayload (Payload.object p) = [p])
    ∧ (w.srv.pendingRead = false →
        (handleRequest parseTime w req).world.srv.points
            = w.srv.points ++ parseTime (coercePayload payload)
        ∧ (handleRequest parseTime w req).delivered = none
        ∧ (handleRequest parseTime w req).world.waiter = w.waiter)
    ∧ (w.srv.pendingRead = true → w.waiter = true →
        (handleRequest parseTime w req).delivered
            = some (ReadResult.points
                ((w.srv.points ++ parseTime (coercePayload payload)).take
                  w.srv.pendingReadLimit))
        ∧ (handleRequest parseTime w req).world.srv.points
            = (w.srv.points ++ parseTime (coercePayload payload)).drop
                w.srv.pendingReadLimit
        ∧ (handleRequest parseTime w req).world.waiter = false) := by
  have hj : ¬(requestFormat req ≠ some "json" ∧ requestFormat req ≠ some "csv") := by
    rcases hf with hf | hf
    · simp [hf]
    · simp [hf]
  refine ⟨?_, ?_, fun p => rfl, ?_, ?_⟩
  · by_cases hp : w.srv.pendingRead
    · by_cases hw : w.waiter
      · simp [handleRequest, hm, hj, hb, hp, hw]
      · simp [handleRequest, hm, hj, hb, hp, hw]
    · simp [handleRequest, hm, hj, hb, hp]
  · by_cases hp : w.srv.pendingRead
    · by_cases hw : w.waiter
      · simp [handleRequest, hm, hj, hb, hp, hw]
      · simp [handleRequest, hm, hj, hb, hp, hw]
    · simp [handleRequest, hm, hj, hb, hp]
  · intro hp
    simp [handleRequest, hm, hj, hb, hp]
  · intro hp hw
    simp [handleRequest, hm, hj, hb, hp, hw, readResult]

/-- C4 witness: a json array request against an idle adapter, a
single-object request, and a json array request resolving a live pending
read of limit 2. -/
theorem C4_success_request_witness :
    (handleRequest id w0 reqGood).response
        = { statusCode := 200, statusMessage := none, body := "" }
    ∧ (handleRequest id w0 reqGood).world.srv.points = [1, 2]
    ∧ (handleRequest id w0 reqGoodSingle).world.srv.points = [5]
    ∧ (handleRequest id wPend reqGood).delivered = some (ReadResult.points [1, 2])
    ∧ (handleRequest id wPend reqGood).world.srv.points = []
    ∧ (handleRequest id wPend reqGood).world.waiter = false := by
  have hA := C4_success_request id w0 reqGood (.array [1, 2]) rfl (Or.inl rfl) rfl
  have hS := C4_success_request id w0 reqGoodSingle (.object 5) rfl (Or.inl rfl) rfl
  have hP := C4_success_request id wPend reqGood (.array [1, 2]) rfl (Or.inl rfl) rfl
  refine ⟨hA.1, ?_, ?_, ?_, ?_, ?_⟩
  · have h1 := (hA.2.2.2.1 rfl).1
    simpa using h1
  · have h2 := (hS.2.2.2.1 rfl).1
    simpa using h2
  · have h3 := (hP.2.2.2.2 rfl rfl).1
    simpa using h3
  · have h4 := (hP.2.2.2.2 rfl rfl).2.1
    simpa using h4
  · exact (hP.2.2.2.2 rfl rfl).2.2

/-- C5 counterexample: the empty string is a method option that is
neither `POST` nor `PUT`, yet construction does not throw — the falsy
method skips the validation (`if (options.method && ...)`) and the
adapter is built with the default method `POST`. -/
theorem C5_counterexample_empty_method :
    ("" ∈ allowed_methods) = False
    ∧ construct Nat { method := some "" } { } =
        .ok { port := 8080, method := "POST", timeField := none, readEvery := 50,
              points := [], pendingRead := false, pendingReadLimit := 0,
              serverStarted := false } := by
  exact ⟨by simp [allowed_methods], rfl⟩

/-- C5 amended: constructing with a non-empty method option that is
neither `POST` nor `PUT` throws a synchronous compile-time
`INVALID-OPTION-VALUE` error; constructing with an attached filter
expression (and a method that passes or skips validation) throws a
synchronous compile-time `ADAPTER-UNSUPPORTED-FILTER` error; both
failures occur at construction time; an absent (or empty, hence falsy)
method option defaults to `POST`. -/
theorem C5_construction_validation {Point : Type} (options : Options) (params : Params) :
    (∀ m, options.method = some m → m ≠ "" → ¬ m ∈ allowed_methods →
      construct Point options params
        = .error (.invalidOptionValue "method" "POST, PUT"))
    ∧ ((options.method = none ∨ options.method = some ""
          ∨ ∃ m, options.method = some m ∧ m ∈ allowed_methods) →
        params.filter_ast = true →
        construct Point options params
          = .error (.adapterUnsupportedFilter "read http_server" "filtering"))
    ∧ (options.method = none → params.filter_ast = false →
        ∃ srv, construct Point options params = .ok srv ∧ srv.method = "POST") := by
  refine ⟨?_, ?_, ?_⟩
  · intro m hm hne hnotin
    simp [construct, hm, hne, hnotin]
  · intro hmok hfa
    rcases hmok with h | h | ⟨m, hm, hmem⟩
    · simp [construct, h, hfa]
    · simp [construct, h, hfa]
    · simp [construct, hm, hmem, hfa]
  · intro hm hfa
    refine ⟨{ port := jsNatOr options.port 8080, method := "POST",
              timeField := options.timeField, readEvery := (options.every).getD 50,
              points := [], pendingRead := false, pendingReadLimit := 0,
              serverStarted := false }, ?_, rfl⟩
    simp [construct, hm, hfa, jsStrOr]

/-- C5 witness: a `DELETE` method throws `INVALID-OPTION-VALUE`, a filter
AST throws `ADAPTER-UNSUPPORTED-FILTER`, and default construction yields
method `POST`. -/
theorem C5_construction_validation_witness :
    construct Nat { method := some "DELETE" } { }
        = .error (.invalidOptionValue "method" "POST, PUT")
    ∧ construct Nat { } { filter_ast := true }
        = .error (.adapterUnsupportedFilter "read http_server" "filtering")
    ∧ ∃ srv, construct Nat { } { } = .ok srv ∧ srv.method = "POST" := by
  refine ⟨?_, ?_, ?_⟩
  · exact (C5_construction_validation { method := some "DELETE" } { }).1
      "DELETE" rfl (by decide) (by decide)
  · exact (C5_construction_validation { } { filter_ast := true }).2.1
      (Or.inl rfl) rfl
  · exact (C5_construction_validation { } { }).2.2 rfl rfl

/-- C6: the views constructed in one program receive, in construction
order, the channel identifiers formed by the string `view` followed by the
consecutive values of the program-wide channel counter; the counter
advances by one per construction, and all assigned identifiers are
pairwise distinct. -/
theorem C6_unique_channels (names : List String) (prog : ProgramState) :
    (initViews names prog).1.map ViewState.channel
        = (List.range names.length).map (fun i => "view" ++ natToDec (prog.channels + i))
    ∧ ((initViews names prog).1.map ViewState.channel).Nodup
    ∧ (initViews names prog).2.channels = prog.channels + names.length := by
  refine ⟨initViews_map_channel names prog, ?_, initViews_counter names prog⟩
  rw [initViews_map_channel names prog]
  apply List.Nodup.map
  · intro a b hab
    simp only at hab
    have := viewChannel_inj hab
    omega
  · exact List.nodup_range _

/-- C7: a view's `mark`, `tick` and `process` each emit exactly one event
of the corresponding kind, carrying the view's own channel and the given
payload, leaving the view unchanged; `eof` emits exactly one `view:eof`
event carrying the channel and then invokes the sink's terminal
completion. -/
theorem C7_view_event_contract {Point Time : Type} (v : ViewState) (t : Time)
    (pts : List Point) :
    @viewMark Point Time v t = ([ViewEvent.viewMark v.channel t], v)
    ∧ @viewTick Point Time v t = ([ViewEvent.viewTick v.channel t], v)
    ∧ @viewProcess Point Time v pts = ([ViewEvent.viewPoints v.channel pts], v)
    ∧ (@viewEof Point Time v).1 = [ViewEvent.viewEof v.channel]
    ∧ (@viewEof Point Time v).2.doneCalled = true
    ∧ (@viewEof Point Time v).2.channel = v.channel := by
  exact ⟨rfl, rfl, rfl, rfl, rfl, rfl⟩

/-- C8: a failing request is answered with a non-200 response produced by
the handler itself (not thrown past it) together with exactly one
triggered `error` event, and a successful one triggers none; and whenever
any `error` event was observed during a run, the CLI run promise settles —
even when `program.done()` resolves — by rejecting with
`Program terminated with errors`. -/
theorem C8_errors_fail_the_run {Point : Type} (parseTime : List Point → List Point)
    (w : SrvWorld Point) (req : Request Point) (evs : List CliEvent) :
    ((handleRequest parseTime w req).response.statusCode = 200
        ↔ (handleRequest parseTime w req).errors = [])
    ∧ ((handleRequest parseTime w req).response.statusCode ≠ 200 →
        (handleRequest parseTime w req).errors.length = 1)
    ∧ (had_an_error evs = true →
        perform_run_outcome true evs
          = some (RunOutcome.rejected "Program terminated with errors")) := by
  have hcases :
      ((handleRequest parseTime w req).response.statusCode = 200
        ∧ (handleRequest parseTime w req).errors = [])
      ∨ ((handleRequest parseTime w req).response.statusCode ≠ 200
        ∧ (handleRequest parseTime w req).errors.length = 1) := by
    unfold handleRequest
    by_cases hm : req.method ≠ w.srv.method
    · simp [hm, handleListenError, invalidHttpMethodError]
    · by_cases hfmt : requestFormat req ≠ some "json" ∧ requestFormat req ≠ some "csv"
      · simp [hm, hfmt, handleListenError, invalidTypeError]
      · cases hb : req.body with
        | error msg => simp [hm, hfmt, hb, handleListenError, parseFailure]
        | ok payload =>
            by_cases hp : w.srv.pendingRead = true
            · by_cases hw : w.waiter = true
              · simp [hm, hfmt, hb, hp, hw]
              · simp [hm, hfmt, hb, hp, hw]
            · simp [hm, hfmt, hb, hp]
  refine ⟨?_, ?_, ?_⟩
  · rcases hcases with ⟨h1, h2⟩ | ⟨h1, h2⟩
    · simp [h1, h2]
    · constructor
      · intro h; exact absurd h h1
      · intro h; rw [h] at h2; simp at h2
  · intro hne
    rcases hcases with ⟨h1, _⟩ | ⟨_, h2⟩
    · exact absurd h1 hne
    · exact h2
  · intro herr
    simp [perform_run_outcome, herr]

/-- C8 witness: the wrong-method request triggers one error event and a
run that observed a program `error` event rejects with the fixed message
even though `done` resolved. -/
theorem C8_errors_fail_the_run_witness :
    (handleRequest id w0 reqWrongMethod).errors.length = 1
    ∧ perform_run_outcome true [CliEvent.progError]
        = some (RunOutcome.rejected "Program terminated with errors") := by
  have h := C8_errors_fail_the_run id w0 reqWrongMethod [CliEvent.progError]
  exact ⟨h.2.1 (by decide), h.2.2 (by decide)⟩

/-- C9: when the listening server was started, `teardown` returns a
promise that is still waiting and resolves exactly when the close callback
fires; when the server was never started it resolves immediately, and no
path throws (`teardown` is total); `start` is what marks the server as
started. -/
theorem C9_teardown_contract {Point : Type} (w : SrvWorld Point) :
    (w.srv.serverStarted = true →
      teardown w = TeardownPromise.waitingClose
      ∧ closeCallbackFire (teardown w) = TeardownPromise.resolvedNow)
    ∧ (w.srv.serverStarted = false → teardown w = TeardownPromise.resolvedNow)
    ∧ (start w).srv.serverStarted = true := by
  refine ⟨?_, ?_, rfl⟩
  · intro h
    constructor
    · simp [teardown, h]
    · simp [teardown, h, closeCallbackFire]
  · intro h
    simp [teardown, h]

/-- C9 witness: a started and a never-started adapter. -/
theorem C9_teardown_contract_witness :
    teardown c10World = TeardownPromise.waitingClose
    ∧ closeCallbackFire (teardown c10World) = TeardownPromise.resolvedNow
    ∧ teardown w0 = TeardownPromise.resolvedNow := by
  have hs := C9_teardown_contract c10World
  have hn := C9_teardown_contract w0
  exact ⟨(hs.1 rfl).1, (hs.1 rfl).2, hn.2.1 rfl⟩

/-- C10: the claim fails on the code.  After a pending read has timed out,
`this.pendingRead` still holds the (now useless) resolver; the next
well-formed request appends its point, sees the stale resolver, and calls
it with `readResult(pendingReadLimit)` — splicing the point out of the
buffer and handing it to an already-settled promise.  The point is neither
kept in the buffer nor returned to any read caller: a subsequent read
finds an empty buffer and suspends. -/
theorem C10_ingested_point_dropped :
    (read c10World 10).1 = ReadCall.suspended 50
    ∧ (timeoutFire (read c10World 10).2).1 = some ReadResult.emptyObject
    ∧ c10AfterTimeout.srv.pendingRead = true
    ∧ c10AfterTimeout.waiter = false
    ∧ (handleRequest id c10AfterTimeout c10Request).response.statusCode = 200
    ∧ (handleRequest id c10AfterTimeout c10Request).delivered = none
    ∧ (handleRequest id c10AfterTimeout c10Request).discarded
        = some (ReadResult.points [7])
    ∧ (handleRequest id c10AfterTimeout c10Request).world.srv.points = []
    ∧ (read (handleRequest id c10AfterTimeout c10Request).world 5).1
        = ReadCall.suspended 50 := by
  exact ⟨rfl, rfl, rfl, rfl, rfl, rfl, rfl, rfl, rfl⟩

end JuttleModel
